import Mathlib

/-!
Shallow embedding of the MLB transform-and-load pipeline
(transform_load_mlb_data.py) and proofs of the spec claims.

Modelling conventions:
* The SQLite database is a record of append-only row lists.  Surrogate keys
  (AUTOINCREMENT) are modelled as listLength + 1, starting from 1, which
  matches SQLite on an append-only table.
* External (api) identifiers are Nat; the source passes non-null integers.
* TEXT date comparison in SQL is byte-wise; it is modelled by a structural
  lexicographic comparison on the character list of the string.
* sqlite3 connections are modelled as a pair of database states
  (committed, current); conn.commit() copies current into committed and the
  implicit rollback of a `with conn:` block restores current from committed.
  A storage error (sqlite3.Error) is injected by an operation counter: the
  parameter failAt names the index of the storage operation that raises.
* Python floats are modelled by exact rationals; round(x, 3) is modelled as
  round-half-to-even of x * 1000 divided by 1000 (the documented Python
  rounding rule, ties to even; binary-float representation error is ignored).
* Timestamps (processed_at, datetime.now) are environmental and not modelled.
-/

/-- A row of the teams table. -/
structure TeamRow where
  team_id : Nat
  api_team_id : Nat
  name : String
  venue : Option String
  city : Option String
deriving DecidableEq

/-- A row of the players table. -/
structure PlayerRow where
  player_id : Nat
  api_player_id : Nat
  name : String
  team_id : Nat
  position : String
deriving DecidableEq

/-- A row of the games table. -/
structure GameRow where
  game_id : Nat
  api_game_id : Nat
  game_date : Option String
  location : Option String
  home_team_id : Nat
  away_team_id : Nat
  home_team_score : Option Int
  away_team_score : Option Int
deriving DecidableEq

/-- A row of the batter_stats table (stat_id surrogate key omitted: it is
never read by the pipeline). -/
structure BatterRow where
  game_id : Nat
  player_id : Nat
  at_bats : Nat
  runs : Nat
  hits : Nat
  doubles : Nat
  triples : Nat
  home_runs : Nat
  rbi : Nat
  walks : Nat
  hit_by_pitch : Nat
  strikeouts : Nat
  stolen_bases : Nat
  caught_stealing : Nat
  avg : ℚ
  obp : ℚ
  slg : ℚ
  ops : ℚ
deriving DecidableEq

/-- A row of the pitcher_stats table (stat_id omitted as above). -/
structure PitcherRow where
  game_id : Nat
  player_id : Nat
  innings_pitched : ℚ
  hits_allowed : Nat
  runs_allowed : Nat
  earned_runs : Nat
  home_runs_allowed : Nat
  walks_allowed : Nat
  strikeouts : Nat
deriving DecidableEq

/-- A row of the processed_files ledger (processed_at timestamp omitted:
environmental, never read by the pipeline). -/
structure ProcessedRow where
  file_name : String
  start_date : String
  end_date : String
deriving DecidableEq

/-- The whole SQLite database state. -/
structure DB where
  teams : List TeamRow
  players : List PlayerRow
  games : List GameRow
  batter_stats : List BatterRow
  pitcher_stats : List PitcherRow
  processed_files : List ProcessedRow
deriving DecidableEq

/-- The empty database right after create_tables on a fresh file. -/
def DB.empty : DB := ⟨[], [], [], [], [], []⟩

/-- SELECT ... FROM teams WHERE api_team_id = e. -/
def DB.findTeam (db : DB) (e : Nat) : Option TeamRow :=
  db.teams.find? fun r => r.api_team_id == e

/-- SELECT ... FROM players WHERE api_player_id = e. -/
def DB.findPlayer (db : DB) (e : Nat) : Option PlayerRow :=
  db.players.find? fun r => r.api_player_id == e

/-- SELECT ... FROM games WHERE api_game_id = e. -/
def DB.findGame (db : DB) (e : Nat) : Option GameRow :=
  db.games.find? fun r => r.api_game_id == e

/-- INSERT OR IGNORE INTO teams: a no-op when a row with the same unique
api_team_id already exists, otherwise appends a fresh row with the next
surrogate key. -/
def DB.insertOrIgnoreTeam (db : DB) (e : Nat) (nm : String)
    (venue city : Option String) : DB :=
  if (db.findTeam e).isSome then db
  else { db with teams := db.teams ++
          [{ team_id := db.teams.length + 1, api_team_id := e, name := nm,
             venue := venue, city := city }] }

/-- INSERT OR IGNORE INTO players (unique api_player_id). -/
def DB.insertOrIgnorePlayer (db : DB) (e : Nat) (nm : String)
    (teamId : Nat) (pos : String) : DB :=
  if (db.findPlayer e).isSome then db
  else { db with players := db.players ++
          [{ player_id := db.players.length + 1, api_player_id := e, name := nm,
             team_id := teamId, position := pos }] }

/-- INSERT OR IGNORE INTO games (unique api_game_id). -/
def DB.insertOrIgnoreGame (db : DB) (e : Nat) (gdate loc : Option String)
    (homeId awayId : Nat) (hs as_ : Option Int) : DB :=
  if (db.findGame e).isSome then db
  else { db with games := db.games ++
          [{ game_id := db.games.length + 1, api_game_id := e, game_date := gdate,
             location := loc, home_team_id := homeId, away_team_id := awayId,
             home_team_score := hs, away_team_score := as_ }] }

/-- get_or_create_team: INSERT OR IGNORE, commit, then SELECT the row by its
external id; `none` models the `raise Exception` branch when no row is found
after the insert attempt. -/
def get_or_create_team (db : DB) (e : Nat) (nm : String)
    (venue city : Option String) : Option (DB × Nat) :=
  let db1 := db.insertOrIgnoreTeam e nm venue city
  match db1.findTeam e with
  | some r => some (db1, r.team_id)
  | none => none

/-- get_or_create_player, same insert-if-absent-then-lookup shape. -/
def get_or_create_player (db : DB) (e : Nat) (nm : String)
    (teamId : Nat) (pos : String) : Option (DB × Nat) :=
  let db1 := db.insertOrIgnorePlayer e nm teamId pos
  match db1.findPlayer e with
  | some r => some (db1, r.player_id)
  | none => none

/-- get_or_create_game, same insert-if-absent-then-lookup shape. -/
def get_or_create_game (db : DB) (e : Nat) (gdate loc : Option String)
    (homeId awayId : Nat) (hs as_ : Option Int) : Option (DB × Nat) :=
  let db1 := db.insertOrIgnoreGame e gdate loc homeId awayId hs as_
  match db1.findGame e with
  | some r => some (db1, r.game_id)
  | none => none

/-- Number of rows of the teams table keyed by external id e. -/
def teamRowCount (db : DB) (e : Nat) : Nat :=
  (db.teams.filter fun r => r.api_team_id == e).length

/-- Number of rows of the players table keyed by external id e. -/
def playerRowCount (db : DB) (e : Nat) : Nat :=
  (db.players.filter fun r => r.api_player_id == e).length

/-- Number of rows of the games table keyed by external id e. -/
def gameRowCount (db : DB) (e : Nat) : Nat :=
  (db.games.filter fun r => r.api_game_id == e).length

/-- A small populated database used to instantiate claims concretely. -/
def sampleDB : DB :=
  { teams := [{ team_id := 1, api_team_id := 10, name := "Tigers",
                venue := some "Comerica", city := some "Detroit" }],
    players := [{ player_id := 1, api_player_id := 20, name := "Miggy",
                  team_id := 1, position := "1B" }],
    games := [{ game_id := 1, api_game_id := 30, game_date := some "2024-04-01",
                location := some "Comerica", home_team_id := 1, away_team_id := 1,
                home_team_score := some 3, away_team_score := some 2 }],
    batter_stats := [], pitcher_stats := [], processed_files := [] }

/-- The Python round() builtin to the nearest integer: ties go to the even
neighbour, modelled exactly over the rationals. -/
def pyRound (q : ℚ) : ℤ :=
  let f := ⌊q⌋
  if q - f < 1 / 2 then f
  else if 1 / 2 < q - f then f + 1
  else if Even f then f else f + 1

/-- The Python round(x, 3): scale by 1000, round, scale back. -/
def round3 (q : ℚ) : ℚ := (pyRound (q * 1000) : ℚ) / 1000

/-- The derived-stat computation of transform_and_load for one raw batting
line (source lines 262-272): average, on-base percentage, slugging and OPS,
each zero-guarded exactly as in the code. -/
def deriveBatterRates (at_bats hits walks hit_by_pitch sac_flies total_bases : Nat) :
    ℚ × ℚ × ℚ × ℚ :=
  let avg : ℚ := if at_bats > 0 then round3 ((hits : ℚ) / (at_bats : ℚ)) else 0
  let obp_denominator : Nat := at_bats + walks + hit_by_pitch + sac_flies
  let obp : ℚ :=
    if obp_denominator > 0 then
      round3 (((hits : ℚ) + (walks : ℚ) + (hit_by_pitch : ℚ)) / (obp_denominator : ℚ))
    else 0
  let slg : ℚ := if at_bats > 0 then round3 ((total_bases : ℚ) / (at_bats : ℚ)) else 0
  let ops : ℚ := round3 (obp + slg)
  (avg, obp, slg, ops)

/-- The specification-side formulas for the same quantities, written from the
spec: average = H/AB (0.0 when AB = 0), on-base = (H+BB+HBP)/(AB+BB+HBP+SF)
(0.0 when the denominator is 0), slugging = TB/AB (0.0 when AB = 0), and
OPS = on-base + slugging, all rounded to 3 decimal places. -/
def specBatterRates (AB H BB HBP SF TB : Nat) : ℚ × ℚ × ℚ × ℚ :=
  let average : ℚ := if AB = 0 then 0 else round3 ((H : ℚ) / (AB : ℚ))
  let onBase : ℚ :=
    if AB + BB + HBP + SF = 0 then 0
    else round3 (((H : ℚ) + (BB : ℚ) + (HBP : ℚ)) /
                 ((AB : ℚ) + (BB : ℚ) + (HBP : ℚ) + (SF : ℚ)))
  let slugging : ℚ := if AB = 0 then 0 else round3 ((TB : ℚ) / (AB : ℚ))
  let ops : ℚ := round3 (onBase + slugging)
  (average, onBase, slugging, ops)

/-- Byte-wise (lexicographic) string comparison, the order SQLite uses for
TEXT columns: le on the character lists. -/
def lexLe : List Char → List Char → Bool
  | [], _ => true
  | _ :: _, [] => false
  | a :: as, b :: bs => if a = b then lexLe as bs else decide (a < b)

/-- SQLite TEXT comparison of two date strings. -/
def dateLe (a b : String) : Bool := lexLe a.toList b.toList

/-- The per-row WHERE clause of file_overlaps_processed:
(new_start <= end_date) AND (new_end >= start_date), i.e. the candidate range
[s1,e1] meets the recorded range [s2,e2] iff s1 <= e2 and s2 <= e1. -/
def rangeOverlaps (s1 e1 s2 e2 : String) : Bool :=
  dateLe s1 e2 && dateLe s2 e1

/-- file_overlaps_processed: SELECT 1 FROM processed_files WHERE the row
predicate holds for any recorded row; on a storage error during the query
(queryOk = false) the except branch returns False. -/
def file_overlaps_processed (queryOk : Bool) (ledger : List ProcessedRow)
    (new_start new_end : String) : Bool :=
  if queryOk then
    ledger.any fun r => rangeOverlaps new_start new_end r.start_date r.end_date
  else false

/-- One entry of the teams section of a snapshot (id, name, venue.name,
locationName; missing JSON sub-fields are None). -/
structure TeamInput where
  id : Nat
  name : String
  venue : Option String
  locationName : Option String
deriving DecidableEq

/-- One roster entry: person.id, person.fullName and the position
abbreviation (None when absent; the code defaults it to NA). -/
structure RosterPlayer where
  person_id : Nat
  fullName : String
  position : Option String
deriving DecidableEq

/-- One entry of the games section. -/
structure GameInput where
  game_id : Nat
  game_date : Option String
  location : Option String
  home_team_id : Nat
  away_team_id : Nat
  home_team_score : Option Int
  away_team_score : Option Int
deriving DecidableEq

/-- One raw batter stat record (absent numeric fields already defaulted to 0,
as stat.get(key, 0) does). -/
structure BatterStatInput where
  game_id : Nat
  player_id : Nat
  at_bats : Nat
  runs : Nat
  hits : Nat
  doubles : Nat
  triples : Nat
  home_runs : Nat
  rbi : Nat
  walks : Nat
  hit_by_pitch : Nat
  strikeouts : Nat
  stolen_bases : Nat
  caught_stealing : Nat
  sac_flies : Nat
  total_bases : Nat
deriving DecidableEq

/-- One raw pitcher stat record. -/
structure PitcherStatInput where
  game_id : Nat
  player_id : Nat
  innings_pitched : ℚ
  hits_allowed : Nat
  runs_allowed : Nat
  earned_runs : Nat
  home_runs_allowed : Nat
  walks_allowed : Nat
  strikeouts : Nat
deriving DecidableEq

/-- A raw JSON snapshot (one ingestion unit).  Roster keys are the JSON
object keys: either a numeric team-id string or a team name. -/
structure Snapshot where
  teams : List TeamInput
  rosters : List (String × List RosterPlayer)
  games : List GameInput
  batter_stats : List BatterStatInput
  pitcher_stats : List PitcherStatInput
deriving DecidableEq

/-- The empty snapshot. -/
def Snapshot.empty : Snapshot := ⟨[], [], [], [], []⟩

/-- A sqlite3 connection: durable (committed) state and working (current)
state. -/
structure Conn where
  committed : DB
  current : DB
deriving DecidableEq

/-- conn.commit(). -/
def Conn.commit (c : Conn) : Conn := ⟨c.current, c.current⟩

/-- The rollback a failed `with conn:` block performs. -/
def Conn.rollback (c : Conn) : Conn := ⟨c.committed, c.committed⟩

/-- The per-unit external-to-internal id mappings are Python dicts; newest
binding first, lookup takes the first hit. -/
abbrev IdMap := List (Nat × Nat)

/-- Mapping keyed by team name. -/
abbrev NameMap := List (String × Nat)

/-- Dictionary lookup d.get(k) for id-keyed maps. -/
def lookupId (m : IdMap) (k : Nat) : Option Nat :=
  (m.find? fun p => p.1 == k).map (·.2)

/-- Dictionary lookup d.get(k) for name-keyed maps. -/
def lookupName (m : NameMap) (k : String) : Option Nat :=
  (m.find? fun p => p.1 == k).map (·.2)

/-- One get_or_create_team call on the connection: a storage error is
raised when the operation counter hits failAt (state unchanged); otherwise
INSERT OR IGNORE, conn.commit(), SELECT — the raise-on-missing-row branch
propagates with the insert already committed. -/
def teamOpF (c : Conn) (ctr : Nat) (failAt : Option Nat) (t : TeamInput) :
    Except Conn (Conn × Nat × Nat) :=
  if failAt == some ctr then .error c
  else
    let db1 := c.current.insertOrIgnoreTeam t.id t.name t.venue t.locationName
    match db1.findTeam t.id with
    | some r => .ok (⟨db1, db1⟩, r.team_id, ctr + 1)
    | none => .error ⟨db1, db1⟩

/-- One get_or_create_player call on the connection, as teamOpF. -/
def playerOpF (c : Conn) (ctr : Nat) (failAt : Option Nat)
    (p : RosterPlayer) (teamId : Nat) : Except Conn (Conn × Nat × Nat) :=
  if failAt == some ctr then .error c
  else
    let db1 := c.current.insertOrIgnorePlayer p.person_id p.fullName teamId
      (p.position.getD "NA")
    match db1.findPlayer p.person_id with
    | some r => .ok (⟨db1, db1⟩, r.player_id, ctr + 1)
    | none => .error ⟨db1, db1⟩

/-- One get_or_create_game call on the connection, as teamOpF. -/
def gameOpF (c : Conn) (ctr : Nat) (failAt : Option Nat)
    (g : GameInput) (homeId awayId : Nat) : Except Conn (Conn × Nat × Nat) :=
  if failAt == some ctr then .error c
  else
    let db1 := c.current.insertOrIgnoreGame g.game_id g.game_date g.location
      homeId awayId g.home_team_score g.away_team_score
    match db1.findGame g.game_id with
    | some r => .ok (⟨db1, db1⟩, r.game_id, ctr + 1)
    | none => .error ⟨db1, db1⟩

/-- The teams loop of transform_and_load (source lines 200-207), building
the by-api and by-name team mappings. -/
def processTeams (c : Conn) (ctr : Nat) (failAt : Option Nat)
    (mapApi : IdMap) (mapName : NameMap) :
    List TeamInput → Except Conn (Conn × Nat × IdMap × NameMap)
  | [] => .ok (c, ctr, mapApi, mapName)
  | t :: ts =>
    match teamOpF c ctr failAt t with
    | .error c1 => .error c1
    | .ok (c1, tid, ctr1) =>
      processTeams c1 ctr1 failAt ((t.id, tid) :: mapApi) ((t.name, tid) :: mapName) ts

/-- Python str.isdigit: nonempty and all digits. -/
def isDigits (s : String) : Bool := !s.toList.isEmpty && s.toList.all Char.isDigit

/-- Roster-key resolution (source lines 213-216): numeric keys go through
the by-api mapping, other keys through the by-name mapping. -/
def resolveRosterTeam (mapApi : IdMap) (mapName : NameMap) (key : String) :
    Option Nat :=
  if isDigits key then lookupId mapApi (key.toNat?.getD 0)
  else lookupName mapName key

/-- The inner player loop of one roster (source lines 220-226). -/
def processRosterPlayers (c : Conn) (ctr : Nat) (failAt : Option Nat)
    (teamId : Nat) (pm : IdMap) :
    List RosterPlayer → Except Conn (Conn × Nat × IdMap)
  | [] => .ok (c, ctr, pm)
  | p :: ps =>
    match playerOpF c ctr failAt p teamId with
    | .error c1 => .error c1
    | .ok (c1, pid, ctr1) =>
      processRosterPlayers c1 ctr1 failAt teamId ((p.person_id, pid) :: pm) ps

/-- The rosters loop (source lines 212-226): a roster whose team key does
not resolve is skipped with a warning; otherwise its players are resolved. -/
def processRosters (c : Conn) (ctr : Nat) (failAt : Option Nat)
    (mapApi : IdMap) (mapName : NameMap) (pm : IdMap) :
    List (String × List RosterPlayer) → Except Conn (Conn × Nat × IdMap)
  | [] => .ok (c, ctr, pm)
  | (key, roster) :: rest =>
    match resolveRosterTeam mapApi mapName key with
    | none => processRosters c ctr failAt mapApi mapName pm rest
    | some tid =>
      match processRosterPlayers c ctr failAt tid pm roster with
      | .error c1 => .error c1
      | .ok (c1, ctr1, pm1) => processRosters c1 ctr1 failAt mapApi mapName pm1 rest

/-- The games loop (source lines 231-245): a game either of whose team ids
is absent from the by-api mapping is skipped with a warning (the counter
warns); otherwise it is resolved and added to the game mapping. -/
def processGames (c : Conn) (ctr : Nat) (failAt : Option Nat)
    (mapApi : IdMap) (gm : IdMap) (warns : Nat) :
    List GameInput → Except Conn (Conn × Nat × IdMap × Nat)
  | [] => .ok (c, ctr, gm, warns)
  | g :: gs =>
    match lookupId mapApi g.home_team_id, lookupId mapApi g.away_team_id with
    | some hid, some aid =>
      match gameOpF c ctr failAt g hid aid with
      | .error c1 => .error c1
      | .ok (c1, gid, ctr1) =>
        processGames c1 ctr1 failAt mapApi ((g.game_id, gid) :: gm) warns gs
    | _, _ => processGames c ctr failAt mapApi gm (warns + 1) gs

/-- The reference-data resolution phase: the body of the `with conn:` block
of transform_and_load (source lines 195-245). -/
def resolveReferences (c : Conn) (failAt : Option Nat) (s : Snapshot) :
    Except Conn (Conn × Nat × IdMap × IdMap × Nat) :=
  match processTeams c 0 failAt [] [] s.teams with
  | .error c1 => .error c1
  | .ok (c1, ctr1, mapApi, mapName) =>
    match processRosters c1 ctr1 failAt mapApi mapName [] s.rosters with
    | .error c2 => .error c2
    | .ok (c2, ctr2, pm) =>
      match processGames c2 ctr2 failAt mapApi [] 0 s.games with
      | .error c3 => .error c3
      | .ok (c3, ctr3, gm, warns) => .ok (c3, ctr3, pm, gm, warns)

/-- Python truthiness of an optional integer: None and 0 are falsy
(the code guards stat rows with `if local_game_id and local_player_id`). -/
def truthy : Option Nat → Bool
  | none => false
  | some n => n != 0

/-- The batter-stat row construction (source lines 256-293): rows whose
game or player did not resolve are filtered out; rates come from the
deriver. -/
def buildBatterRows (gm pm : IdMap) : List BatterStatInput → List BatterRow
  | [] => []
  | st :: sts =>
    let lg := lookupId gm st.game_id
    let lp := lookupId pm st.player_id
    if truthy lg && truthy lp then
      let rates := deriveBatterRates st.at_bats st.hits st.walks st.hit_by_pitch
        st.sac_flies st.total_bases
      { game_id := lg.getD 0, player_id := lp.getD 0, at_bats := st.at_bats,
        runs := st.runs, hits := st.hits, doubles := st.doubles,
        triples := st.triples, home_runs := st.home_runs, rbi := st.rbi,
        walks := st.walks, hit_by_pitch := st.hit_by_pitch,
        strikeouts := st.strikeouts, stolen_bases := st.stolen_bases,
        caught_stealing := st.caught_stealing, avg := rates.1,
        obp := rates.2.1, slg := rates.2.2.1, ops := rates.2.2.2 }
        :: buildBatterRows gm pm sts
    else buildBatterRows gm pm sts

/-- The pitcher-stat row construction (source lines 297-321). -/
def buildPitcherRows (gm pm : IdMap) : List PitcherStatInput → List PitcherRow
  | [] => []
  | st :: sts =>
    let lg := lookupId gm st.game_id
    let lp := lookupId pm st.player_id
    if truthy lg && truthy lp then
      { game_id := lg.getD 0, player_id := lp.getD 0,
        innings_pitched := st.innings_pitched, hits_allowed := st.hits_allowed,
        runs_allowed := st.runs_allowed, earned_runs := st.earned_runs,
        home_runs_allowed := st.home_runs_allowed,
        walks_allowed := st.walks_allowed, strikeouts := st.strikeouts }
        :: buildPitcherRows gm pm sts
    else buildPitcherRows gm pm sts

/-- bulk_insert_stats into batter_stats: one storage operation (executemany
then commit); on fault the exception propagates and nothing of it commits. -/
def bulkInsertBatter (c : Conn) (ctr : Nat) (failAt : Option Nat)
    (rows : List BatterRow) : Except Conn (Conn × Nat) :=
  if failAt == some ctr then .error c
  else
    let db1 := { c.current with batter_stats := c.current.batter_stats ++ rows }
    .ok (⟨db1, db1⟩, ctr + 1)

/-- bulk_insert_stats into pitcher_stats, as bulkInsertBatter. -/
def bulkInsertPitcher (c : Conn) (ctr : Nat) (failAt : Option Nat)
    (rows : List PitcherRow) : Except Conn (Conn × Nat) :=
  if failAt == some ctr then .error c
  else
    let db1 := { c.current with pitcher_stats := c.current.pitcher_stats ++ rows }
    .ok (⟨db1, db1⟩, ctr + 1)

/-- transform_and_load on one parsed snapshot: reference resolution inside
the `with conn:` block (commit on normal exit, rollback on exception), then
the two bulk stat loads, each its own transaction, each guarded by the
nonempty check of the source.  The error value is the durable database
after the failed run (the connection closes without committing pending
work); the ok value is the durable database on success. -/
def transform_and_load (db : DB) (s : Snapshot) (failAt : Option Nat) :
    Except DB DB :=
  match resolveReferences ⟨db, db⟩ failAt s with
  | .error c1 => .error c1.rollback.committed
  | .ok (c1, ctr1, pm, gm, _warns) =>
    let c2 := c1.commit
    match (if s.batter_stats.isEmpty then Except.ok (c2, ctr1)
           else bulkInsertBatter c2 ctr1 failAt
             (buildBatterRows gm pm s.batter_stats)) with
    | .error c3 => .error c3.committed
    | .ok (c3, ctr3) =>
      match (if s.pitcher_stats.isEmpty then Except.ok (c3, ctr3)
             else bulkInsertPitcher c3 ctr3 failAt
               (buildPitcherRows gm pm s.pitcher_stats)) with
      | .error c4 => .error c4.committed
      | .ok (c4, _) => .ok c4.committed

/-- Consume an exact literal from the head of a character list. -/
def dropLit : List Char → List Char → Option (List Char)
  | [], l => some l
  | _ :: _, [] => none
  | c :: cs, x :: xs => if c = x then dropLit cs xs else none

/-- A character of the date groups of the filename pattern: digit or hyphen. -/
def isDateChar (c : Char) : Bool := c.isDigit || c == '-'

/-- Whether the list contains ".json" as a substring (the regex tail
.*\.json; newline characters in filenames are not modelled). -/
def hasDotJson : List Char → Bool
  | [] => false
  | c :: cs => (dropLit ".json".toList (c :: cs)).isSome || hasDotJson cs

/-- extract_date_range: the anchored match of
mlb_raw_([0-9-]+)_([0-9-]+)_.*\.json against the filename.  The two greedy
character-class groups are deterministic: the literal underscore that
follows each group cannot occur inside the class, so backtracking never
yields another split. -/
def extract_date_range (filename : String) : Option String × Option String :=
  match dropLit "mlb_raw_".toList filename.toList with
  | none => (none, none)
  | some rest =>
    let g1 := rest.takeWhile isDateChar
    let rest1 := rest.dropWhile isDateChar
    if g1.isEmpty then (none, none)
    else
      match rest1 with
      | '_' :: rest2 =>
        let g2 := rest2.takeWhile isDateChar
        let rest3 := rest2.dropWhile isDateChar
        if g2.isEmpty then (none, none)
        else
          match rest3 with
          | '_' :: rest4 =>
            if hasDotJson rest4 then (some (String.mk g1), some (String.mk g2))
            else (none, none)
          | _ => (none, none)
      | _ => (none, none)

/-- record_file_processed: INSERT INTO processed_files then commit. -/
def record_file_processed (db : DB) (filename start_date end_date : String) :
    DB :=
  { db with processed_files :=
      db.processed_files ++ [⟨filename, start_date, end_date⟩] }

/-- filename.endswith(".json"), the filter of the directory scan in main. -/
def endsWithJson (s : String) : Bool :=
  decide (s.toList.drop (s.toList.length - 5) = ".json".toList)

/-- One candidate file in the raw intake directory: its name, its parsed
JSON content, whether the ledger overlap query succeeds, and the storage
fault schedule of its load (none = no storage error). -/
structure FileUnit where
  filename : String
  snapshot : Snapshot
  overlapQueryOk : Bool
  failAt : Option Nat

/-- What main did with one discovered file. -/
inductive FileOutcome
  | notJson
  | skippedOverlap
  | committed (warned : Bool)
  | failed (warned : Bool)
deriving DecidableEq

/-- The body of the per-file loop of main (source lines 382-402): filter on the
.json suffix, parse the token, consult the ledger, load, record, archive.
warned is true when the token did not parse.  A committed outcome means the
file was moved to the archive; failed and skipped files stay in intake. -/
def processOneFile (db : DB) (u : FileUnit) : DB × FileOutcome :=
  if ¬ endsWithJson u.filename then (db, .notJson)
  else
    match extract_date_range u.filename with
    | (some s, some e) =>
      if file_overlaps_processed u.overlapQueryOk db.processed_files s e then
        (db, .skippedOverlap)
      else
        match transform_and_load db u.snapshot u.failAt with
        | .error db1 => (db1, .failed false)
        | .ok db1 => (record_file_processed db1 u.filename s e, .committed false)
    | _ =>
      match transform_and_load db u.snapshot u.failAt with
      | .error db1 => (db1, .failed true)
      | .ok db1 => (db1, .committed true)

/-- The loop of main over the intake directory listing. -/
def mainRun (db : DB) : List FileUnit → DB × List FileOutcome
  | [] => (db, [])
  | u :: us =>
    let r1 := processOneFile db u
    let r2 := mainRun r1.1 us
    (r2.1, r1.2 :: r2.2)

/-- The files the batch moved to the archive directory: exactly the
committed ones. -/
def archivedFiles : List FileUnit → List FileOutcome → List String
  | [], _ => []
  | _, [] => []
  | u :: us, o :: os =>
    match o with
    | .committed _ => u.filename :: archivedFiles us os
    | _ => archivedFiles us os

/-- The files still in the intake directory after the batch: everything not
committed. -/
def remainingRaw : List FileUnit → List FileOutcome → List String
  | [], _ => []
  | u :: us, [] => u.filename :: remainingRaw us []
  | u :: us, o :: os =>
    match o with
    | .committed _ => remainingRaw us os
    | _ => u.filename :: remainingRaw us os

/-- A two-team unit whose second resolver call hits a storage error. -/
def c3Snapshot : Snapshot :=
  { teams := [⟨100, "Alpha", none, none⟩, ⟨200, "Beta", none, none⟩],
    rosters := [], games := [], batter_stats := [], pitcher_stats := [] }

/-- A ledger already holding the range 2024-04-01 .. 2024-04-07. -/
def ledgerDB : DB :=
  { DB.empty with processed_files :=
      [⟨"mlb_raw_2024-04-01_2024-04-07_a.json", "2024-04-01", "2024-04-07"⟩] }

/-- A game referencing the unmapped external team id 99. -/
def c7Game30 : GameInput := ⟨30, none, none, 99, 5, none, none⟩

/-- A game whose two team references resolve through the mapping [(5, 1)]. -/
def c7Game31 : GameInput := ⟨31, none, none, 5, 5, none, none⟩

/-- The api game ids of the games table after a games-loop run (empty on a
storage error). -/
def gamesTableIds : Except Conn (Conn × Nat × IdMap × Nat) → List Nat
  | .error _ => []
  | .ok (c1, _, _, _) => c1.committed.games.map (·.api_game_id)

/-- The warning count of a successful games-loop run. -/
def gamesWarnCount : Except Conn (Conn × Nat × IdMap × Nat) → Option Nat
  | .error _ => none
  | .ok (_, _, _, w) => some w

/-- Both states of a connection carry the given processed_files table. -/
def Conn.pf (c : Conn) (v : List ProcessedRow) : Prop :=
  c.committed.processed_files = v ∧ c.current.processed_files = v

/-- The connection reachable from a step result (error value, or the
connection component of the ok value) carries the given ledger table. -/
def connPfAfter {α : Type} (proj : α → Conn) :
    Except Conn α → List ProcessedRow → Prop
  | .error c, v => c.pf v
  | .ok a, v => (proj a).pf v

/-- The durable database a load ends with carries the given ledger table. -/
def loadResultPf : Except DB DB → List ProcessedRow → Prop
  | .error db1, v => db1.processed_files = v
  | .ok db1, v => db1.processed_files = v

/-- A unit whose very first resolver call hits a storage error. -/
def c6Unit1 : FileUnit :=
  ⟨"mlb_raw_2024-05-01_2024-05-07_x.json", c3Snapshot, true, some 0⟩

/-- A well-behaved follow-up unit. -/
def c6Unit2 : FileUnit :=
  ⟨"mlb_raw_2024-06-01_2024-06-07_y.json", Snapshot.empty, true, none⟩

section ListLemmas

variable {R : Type} (key : R → Nat)

/-- In a list whose keys are nodup, a successful find? by key means exactly
one row carries that key. -/
theorem filter_key_length_one (e : Nat) :
    ∀ (l : List R), (l.map key).Nodup → ∀ r,
      l.find? (fun x => key x == e) = some r →
      (l.filter fun x => key x == e).length = 1 := by
  intro l
  induction l with
  | nil => intro _ r h; simp [List.find?] at h
  | cons x xs ih =>
    intro hnd r hfind
    have hnd' := hnd
    rw [List.map_cons, List.nodup_cons] at hnd'
    by_cases hx : key x == e
    · have hxs : (xs.filter fun y => key y == e) = [] := by
        rw [List.filter_eq_nil_iff]
        intro y hy hkey
        apply hnd'.1
        have : key y = e := by simpa using hkey
        have hxe : key x = e := by simpa using hx
        rw [List.mem_map]
        exact ⟨y, hy, by rw [this, hxe]⟩
      simp [List.filter_cons, hx, hxs]
    · have hfx : (key x == e) = false := by simpa using hx
      rw [List.find?_cons, hfx] at hfind
      simp only [List.filter_cons, hfx]
      simpa using ih hnd'.2 r hfind

/-- find? fails on every element of a list iff the predicate is false on it. -/
theorem find?_append_single (p : R → Bool) (l : List R) (a : R)
    (hl : l.find? p = none) (ha : p a = true) :
    (l ++ [a]).find? p = some a := by
  rw [List.find?_append, hl]
  simp [List.find?, ha]

end ListLemmas

/-- Resolving a team twice with the same external id (any attribute values)
returns the same internal id both times and leaves exactly one row for it,
provided external ids were unique beforehand (the UNIQUE constraint). -/
theorem get_or_create_team_idem (db : DB) (e : Nat) (n1 n2 : String)
    (v1 v2 c1 c2 : Option String)
    (hnd : (db.teams.map (·.api_team_id)).Nodup) :
    ∃ db1 id1 db2 id2,
      get_or_create_team db e n1 v1 c1 = some (db1, id1) ∧
      get_or_create_team db1 e n2 v2 c2 = some (db2, id2) ∧
      id1 = id2 ∧ teamRowCount db2 e = 1 := by
  cases hfind : db.findTeam e with
  | some r =>
    have hsome : (db.findTeam e).isSome := by rw [hfind]; rfl
    have hstep : ∀ nm v c, db.insertOrIgnoreTeam e nm v c = db := by
      intro nm v c; rw [DB.insertOrIgnoreTeam, if_pos hsome]
    refine ⟨db, r.team_id, db, r.team_id, ?_, ?_, rfl, ?_⟩
    · rw [get_or_create_team]; simp only [hstep, hfind]
    · rw [get_or_create_team]; simp only [hstep, hfind]
    · exact filter_key_length_one (·.api_team_id) e db.teams hnd r
        (by simpa [DB.findTeam] using hfind)
  | none =>
    set newRow : TeamRow :=
      { team_id := db.teams.length + 1, api_team_id := e, name := n1,
        venue := v1, city := c1 } with hnew
    have hnone : ¬ (db.findTeam e).isSome := by rw [hfind]; simp
    have hstep : db.insertOrIgnoreTeam e n1 v1 c1 =
        { db with teams := db.teams ++ [newRow] } := by
      rw [DB.insertOrIgnoreTeam, if_neg hnone]
    have hfind1 : ({ db with teams := db.teams ++ [newRow] } : DB).findTeam e
        = some newRow := by
      rw [DB.findTeam]
      exact find?_append_single _ _ _ hfind (by simp [hnew])
    set db1 : DB := { db with teams := db.teams ++ [newRow] } with hdb1
    have hnd1 : (db1.teams.map (·.api_team_id)).Nodup := by
      rw [hdb1]
      simp only [List.map_append, List.map_cons, List.map_nil]
      rw [List.nodup_append]
      refine ⟨hnd, List.nodup_singleton _, ?_⟩
      intro a ha hb
      simp only [hnew, List.mem_singleton] at hb
      rw [List.mem_map] at ha
      obtain ⟨x, hx, hax⟩ := ha
      have hfind' : db.teams.find? (fun r => r.api_team_id == e) = none := hfind
      have hnp := List.find?_eq_none.mp hfind' x hx
      apply hnp
      simp [hax, hb]
    have hsome1 : (db1.findTeam e).isSome := by rw [hfind1]; rfl
    have hstep1 : db1.insertOrIgnoreTeam e n2 v2 c2 = db1 := by
      rw [DB.insertOrIgnoreTeam, if_pos hsome1]
    refine ⟨db1, newRow.team_id, db1, newRow.team_id, ?_, ?_, rfl, ?_⟩
    · rw [get_or_create_team]; simp only [hstep, ← hdb1, hfind1]
    · rw [get_or_create_team]; simp only [hstep1, hfind1]
    · exact filter_key_length_one (·.api_team_id) e db1.teams hnd1 newRow
        (by simpa [DB.findTeam] using hfind1)

/-- Resolving a player twice with the same external id behaves like the team
case: same internal id, one row. -/
theorem get_or_create_player_idem (db : DB) (e : Nat) (n1 n2 : String)
    (t1 t2 : Nat) (p1 p2 : String)
    (hnd : (db.players.map (·.api_player_id)).Nodup) :
    ∃ db1 id1 db2 id2,
      get_or_create_player db e n1 t1 p1 = some (db1, id1) ∧
      get_or_create_player db1 e n2 t2 p2 = some (db2, id2) ∧
      id1 = id2 ∧ playerRowCount db2 e = 1 := by
  cases hfind : db.findPlayer e with
  | some r =>
    have hsome : (db.findPlayer e).isSome := by rw [hfind]; rfl
    have hstep : ∀ nm t p, db.insertOrIgnorePlayer e nm t p = db := by
      intro nm t p; rw [DB.insertOrIgnorePlayer, if_pos hsome]
    refine ⟨db, r.player_id, db, r.player_id, ?_, ?_, rfl, ?_⟩
    · rw [get_or_create_player]; simp only [hstep, hfind]
    · rw [get_or_create_player]; simp only [hstep, hfind]
    · exact filter_key_length_one (·.api_player_id) e db.players hnd r
        (by simpa [DB.findPlayer] using hfind)
  | none =>
    set newRow : PlayerRow :=
      { player_id := db.players.length + 1, api_player_id := e, name := n1,
        team_id := t1, position := p1 } with hnew
    have hnone : ¬ (db.findPlayer e).isSome := by rw [hfind]; simp
    have hstep : db.insertOrIgnorePlayer e n1 t1 p1 =
        { db with players := db.players ++ [newRow] } := by
      rw [DB.insertOrIgnorePlayer, if_neg hnone]
    have hfind1 : ({ db with players := db.players ++ [newRow] } : DB).findPlayer e
        = some newRow := by
      rw [DB.findPlayer]
      exact find?_append_single _ _ _ hfind (by simp [hnew])
    set db1 : DB := { db with players := db.players ++ [newRow] } with hdb1
    have hnd1 : (db1.players.map (·.api_player_id)).Nodup := by
      rw [hdb1]
      simp only [List.map_append, List.map_cons, List.map_nil]
      rw [List.nodup_append]
      refine ⟨hnd, List.nodup_singleton _, ?_⟩
      intro a ha hb
      simp only [hnew, List.mem_singleton] at hb
      rw [List.mem_map] at ha
      obtain ⟨x, hx, hax⟩ := ha
      have hfind' : db.players.find? (fun r => r.api_player_id == e) = none := hfind
      have hnp := List.find?_eq_none.mp hfind' x hx
      apply hnp
      simp [hax, hb]
    have hsome1 : (db1.findPlayer e).isSome := by rw [hfind1]; rfl
    have hstep1 : db1.insertOrIgnorePlayer e n2 t2 p2 = db1 := by
      rw [DB.insertOrIgnorePlayer, if_pos hsome1]
    refine ⟨db1, newRow.player_id, db1, newRow.player_id, ?_, ?_, rfl, ?_⟩
    · rw [get_or_create_player]; simp only [hstep, ← hdb1, hfind1]
    · rw [get_or_create_player]; simp only [hstep1, hfind1]
    · exact filter_key_length_one (·.api_player_id) e db1.players hnd1 newRow
        (by simpa [DB.findPlayer] using hfind1)

/-- Resolving a game twice with the same external id behaves like the team
case: same internal id, one row. -/
theorem get_or_create_game_idem (db : DB) (e : Nat)
    (d1 d2 l1 l2 : Option String) (h1 h2 a1 a2 : Nat)
    (s1 s2 s3 s4 : Option Int)
    (hnd : (db.games.map (·.api_game_id)).Nodup) :
    ∃ db1 id1 db2 id2,
      get_or_create_game db e d1 l1 h1 a1 s1 s2 = some (db1, id1) ∧
      get_or_create_game db1 e d2 l2 h2 a2 s3 s4 = some (db2, id2) ∧
      id1 = id2 ∧ gameRowCount db2 e = 1 := by
  cases hfind : db.findGame e with
  | some r =>
    have hsome : (db.findGame e).isSome := by rw [hfind]; rfl
    have hstep : ∀ d l h a s s', db.insertOrIgnoreGame e d l h a s s' = db := by
      intro d l h a s s'; rw [DB.insertOrIgnoreGame, if_pos hsome]
    refine ⟨db, r.game_id, db, r.game_id, ?_, ?_, rfl, ?_⟩
    · rw [get_or_create_game]; simp only [hstep, hfind]
    · rw [get_or_create_game]; simp only [hstep, hfind]
    · exact filter_key_length_one (·.api_game_id) e db.games hnd r
        (by simpa [DB.findGame] using hfind)
  | none =>
    set newRow : GameRow :=
      { game_id := db.games.length + 1, api_game_id := e, game_date := d1,
        location := l1, home_team_id := h1, away_team_id := a1,
        home_team_score := s1, away_team_score := s2 } with hnew
    have hnone : ¬ (db.findGame e).isSome := by rw [hfind]; simp
    have hstep : db.insertOrIgnoreGame e d1 l1 h1 a1 s1 s2 =
        { db with games := db.games ++ [newRow] } := by
      rw [DB.insertOrIgnoreGame, if_neg hnone]
    have hfind1 : ({ db with games := db.games ++ [newRow] } : DB).findGame e
        = some newRow := by
      rw [DB.findGame]
      exact find?_append_single _ _ _ hfind (by simp [hnew])
    set db1 : DB := { db with games := db.games ++ [newRow] } with hdb1
    have hnd1 : (db1.games.map (·.api_game_id)).Nodup := by
      rw [hdb1]
      simp only [List.map_append, List.map_cons, List.map_nil]
      rw [List.nodup_append]
      refine ⟨hnd, List.nodup_singleton _, ?_⟩
      intro a ha hb
      simp only [hnew, List.mem_singleton] at hb
      rw [List.mem_map] at ha
      obtain ⟨x, hx, hax⟩ := ha
      have hfind' : db.games.find? (fun r => r.api_game_id == e) = none := hfind
      have hnp := List.find?_eq_none.mp hfind' x hx
      apply hnp
      simp [hax, hb]
    have hsome1 : (db1.findGame e).isSome := by rw [hfind1]; rfl
    have hstep1 : db1.insertOrIgnoreGame e d2 l2 h2 a2 s3 s4 = db1 := by
      rw [DB.insertOrIgnoreGame, if_pos hsome1]
    refine ⟨db1, newRow.game_id, db1, newRow.game_id, ?_, ?_, rfl, ?_⟩
    · rw [get_or_create_game]; simp only [hstep, ← hdb1, hfind1]
    · rw [get_or_create_game]; simp only [hstep1, hfind1]
    · exact filter_key_length_one (·.api_game_id) e db1.games hnd1 newRow
        (by simpa [DB.findGame] using hfind1)

/-- Claim C1: entity resolution is idempotent: for every external id e,
calling the team, player, or game resolver twice with the same e (same or
different attribute values) returns the same internal id both times and
leaves exactly one row keyed by e in the corresponding table (under the
UNIQUE constraint on external ids, modelled as Nodup). -/
theorem claim_C1_resolution_idempotent
    (db : DB) (e : Nat)
    (tn1 tn2 : String) (tv1 tv2 tc1 tc2 : Option String)
    (pn1 pn2 : String) (pt1 pt2 : Nat) (pp1 pp2 : String)
    (gd1 gd2 gl1 gl2 : Option String) (gh1 gh2 ga1 ga2 : Nat)
    (gs1 gs2 gs3 gs4 : Option Int)
    (hndT : (db.teams.map (·.api_team_id)).Nodup)
    (hndP : (db.players.map (·.api_player_id)).Nodup)
    (hndG : (db.games.map (·.api_game_id)).Nodup) :
    (∃ db1 id1 db2 id2,
      get_or_create_team db e tn1 tv1 tc1 = some (db1, id1) ∧
      get_or_create_team db1 e tn2 tv2 tc2 = some (db2, id2) ∧
      id1 = id2 ∧ teamRowCount db2 e = 1) ∧
    (∃ db1 id1 db2 id2,
      get_or_create_player db e pn1 pt1 pp1 = some (db1, id1) ∧
      get_or_create_player db1 e pn2 pt2 pp2 = some (db2, id2) ∧
      id1 = id2 ∧ playerRowCount db2 e = 1) ∧
    (∃ db1 id1 db2 id2,
      get_or_create_game db e gd1 gl1 gh1 ga1 gs1 gs2 = some (db1, id1) ∧
      get_or_create_game db1 e gd2 gl2 gh2 ga2 gs3 gs4 = some (db2, id2) ∧
      id1 = id2 ∧ gameRowCount db2 e = 1) :=
  ⟨get_or_create_team_idem db e tn1 tn2 tv1 tv2 tc1 tc2 hndT,
   get_or_create_player_idem db e pn1 pn2 pt1 pt2 pp1 pp2 hndP,
   get_or_create_game_idem db e gd1 gd2 gl1 gl2 gh1 gh2 ga1 ga2 gs1 gs2 gs3 gs4 hndG⟩

/-- Concrete instantiation of claim C1 on the empty database, with the two
calls carrying different attribute values. -/
theorem claim_C1_witness :
    (∃ db1 id1 db2 id2,
      get_or_create_team DB.empty 7 "Tigers" (some "Comerica") (some "Detroit")
        = some (db1, id1) ∧
      get_or_create_team db1 7 "Tygers" none none = some (db2, id2) ∧
      id1 = id2 ∧ teamRowCount db2 7 = 1) ∧
    (∃ db1 id1 db2 id2,
      get_or_create_player DB.empty 7 "Miggy" 1 "1B" = some (db1, id1) ∧
      get_or_create_player db1 7 "Miggy" 2 "DH" = some (db2, id2) ∧
      id1 = id2 ∧ playerRowCount db2 7 = 1) ∧
    (∃ db1 id1 db2 id2,
      get_or_create_game DB.empty 7 (some "2024-04-01") (some "Comerica") 1 2
        (some 3) (some 2) = some (db1, id1) ∧
      get_or_create_game db1 7 none none 3 4 none none = some (db2, id2) ∧
      id1 = id2 ∧ gameRowCount db2 7 = 1) :=
  claim_C1_resolution_idempotent DB.empty 7
    "Tigers" "Tygers" (some "Comerica") none (some "Detroit") none
    "Miggy" "Miggy" 1 2 "1B" "DH"
    (some "2024-04-01") none (some "Comerica") none 1 3 2 4
    (some 3) (some 2) none none
    (by decide) (by decide) (by decide)

/-- Claim C9: team, player and game rows are append-only: resolving an
already-known external id, with any (possibly different) attribute values,
leaves the database completely unchanged and returns the stored surrogate id;
in particular a known player keeps every field, including its team
association, fixed at first resolution. -/
theorem claim_C9_reference_rows_append_only
    (db : DB)
    (e : Nat) (r : PlayerRow) (nm : String) (t : Nat) (p : String)
    (e' : Nat) (rt : TeamRow) (nm' : String) (v' c' : Option String)
    (e'' : Nat) (rg : GameRow) (d'' l'' : Option String) (h'' a'' : Nat)
    (sc1 sc2 : Option Int)
    (hP : db.findPlayer e = some r)
    (hT : db.findTeam e' = some rt)
    (hG : db.findGame e'' = some rg) :
    get_or_create_player db e nm t p = some (db, r.player_id) ∧
    get_or_create_team db e' nm' v' c' = some (db, rt.team_id) ∧
    get_or_create_game db e'' d'' l'' h'' a'' sc1 sc2 = some (db, rg.game_id) := by
  refine ⟨?_, ?_, ?_⟩
  · rw [get_or_create_player]; simp [DB.insertOrIgnorePlayer, hP]
  · rw [get_or_create_team]; simp [DB.insertOrIgnoreTeam, hT]
  · rw [get_or_create_game]; simp [DB.insertOrIgnoreGame, hG]

/-- Concrete instantiation of claim C9: re-resolving the stored player with a
different team id, name and position changes nothing, and likewise for the
stored team and game. -/
theorem claim_C9_witness :
    get_or_create_player sampleDB 20 "Someone Else" 99 "C"
      = some (sampleDB, 1) ∧
    get_or_create_team sampleDB 10 "Renamed" none none
      = some (sampleDB, 1) ∧
    get_or_create_game sampleDB 30 none none 7 8 none none
      = some (sampleDB, 1) :=
  claim_C9_reference_rows_append_only sampleDB
    20 { player_id := 1, api_player_id := 20, name := "Miggy",
         team_id := 1, position := "1B" } "Someone Else" 99 "C"
    10 { team_id := 1, api_team_id := 10, name := "Tigers",
         venue := some "Comerica", city := some "Detroit" } "Renamed" none none
    30 { game_id := 1, api_game_id := 30, game_date := some "2024-04-01",
         location := some "Comerica", home_team_id := 1, away_team_id := 1,
         home_team_score := some 3, away_team_score := some 2 }
    none none 7 8 none none
    (by decide) (by decide) (by decide)

/-- Rounding zero gives zero. -/
theorem round3_zero : round3 0 = 0 := by
  norm_num [round3, pyRound]

/-- A positivity-guarded value equals the corresponding zero-guarded value. -/
theorem guard_swap (n : Nat) (x : ℚ) :
    (if n > 0 then x else 0) = (if n = 0 then 0 else x) := by
  by_cases hn : n = 0
  · simp [hn]
  · simp [hn, Nat.pos_of_ne_zero hn]

/-- Claim C2: for every raw batting line the deriver computes exactly the
spec formulas (average = H/AB, on-base = (H+BB+HBP)/(AB+BB+HBP+SF),
slugging = TB/AB, OPS = on-base + slugging, each rounded to 3 decimals, each
ratio defined as 0.0 on a zero denominator); in particular the all-zero line
yields 0.0 for all four values with no division error. -/
theorem claim_C2_derived_stats :
    (∀ at_bats hits walks hit_by_pitch sac_flies total_bases : Nat,
      deriveBatterRates at_bats hits walks hit_by_pitch sac_flies total_bases =
      specBatterRates at_bats hits walks hit_by_pitch sac_flies total_bases) ∧
    deriveBatterRates 0 0 0 0 0 0 = (0, 0, 0, 0) := by
  constructor
  · intro ab h bb hbp sf tb
    simp only [deriveBatterRates, specBatterRates, guard_swap, Nat.cast_add]
  · simp [deriveBatterRates, round3_zero]

/-- lexLe decides the lexicographic (non-strict) order on character lists. -/
theorem lexLe_iff : ∀ as bs : List Char,
    lexLe as bs = true ↔ ¬ List.Lex (· < ·) bs as
  | [], bs => by
    simp only [lexLe]
    exact iff_of_true trivial (List.Lex.not_nil_right _ _)
  | a :: as, [] => by
    simp only [lexLe]
    exact iff_of_false (by simp) (not_not_intro List.Lex.nil)
  | a :: as, b :: bs => by
    simp only [lexLe]
    by_cases hab : a = b
    · subst hab
      rw [if_pos rfl, lexLe_iff as bs]
      exact (not_congr List.Lex.cons_iff).symm
    · rw [if_neg hab]
      rcases lt_trichotomy a b with hlt | heq | hgt
      · refine iff_of_true (by simp [hlt]) ?_
        intro hcontra
        cases hcontra with
        | cons h => exact hab rfl
        | rel h => exact absurd h (lt_asymm hlt)
      · exact absurd heq hab
      · exact iff_of_false (by simp [lt_asymm hgt])
          (not_not_intro (List.Lex.rel hgt))

/-- dateLe agrees with the standard linear order on strings. -/
theorem dateLe_iff (a b : String) : dateLe a b = true ↔ a ≤ b := by
  rw [dateLe, lexLe_iff]
  have hlt : b < a ↔ List.Lex (· < ·) b.toList a.toList :=
    String.lt_iff_toList_lt
  rw [← hlt]
  exact not_lt

/-- Claim C5: the ledger overlap predicate implements exactly the rule that
[s1,e1] and [s2,e2] overlap iff s1 <= e2 and s2 <= e1, and it is symmetric
in the two ranges. -/
theorem claim_C5_overlap_rule_symmetric (s1 e1 s2 e2 : String) :
    (rangeOverlaps s1 e1 s2 e2 = true ↔ (s1 ≤ e2 ∧ s2 ≤ e1)) ∧
    rangeOverlaps s1 e1 s2 e2 = rangeOverlaps s2 e2 s1 e1 := by
  constructor
  · rw [rangeOverlaps, Bool.and_eq_true, dateLe_iff, dateLe_iff]
  · rw [rangeOverlaps, rangeOverlaps, Bool.and_comm]

/-- Claim C3 is violated by the code: loading a unit with two teams while a
storage error hits the second resolver call leaves the row of team one
durable — get_or_create_team commits after every insert, so the
`with conn:` rollback has nothing left to undo and reference resolution is
not atomic. -/
theorem claim_C3_not_atomic :
    transform_and_load DB.empty c3Snapshot (some 1) =
      .error ⟨[⟨1, 100, "Alpha", none, none⟩], [], [], [], [], []⟩ := rfl

/-- Claim C4: a unit whose declared range overlaps a recorded range is
rejected wholesale: the database — every data table and the ledger — is
returned untouched and the unit is skipped. -/
theorem claim_C4_overlap_rejected (db : DB) (u : FileUnit) (s e : String)
    (hjson : endsWithJson u.filename = true)
    (hparse : extract_date_range u.filename = (some s, some e))
    (hover : file_overlaps_processed u.overlapQueryOk db.processed_files s e
      = true) :
    processOneFile db u = (db, .skippedOverlap) := by
  simp [processOneFile, hjson, hparse, hover]

/-- Concrete instantiation of claim C4 with the ranges of the spec example:
recorded [2024-04-01, 2024-04-07], declared [2024-04-05, 2024-04-10]. -/
theorem claim_C4_witness :
    processOneFile ledgerDB
      ⟨"mlb_raw_2024-04-05_2024-04-10_b.json", Snapshot.empty, true, none⟩ =
      (ledgerDB, .skippedOverlap) :=
  claim_C4_overlap_rejected ledgerDB
    ⟨"mlb_raw_2024-04-05_2024-04-10_b.json", Snapshot.empty, true, none⟩
    "2024-04-05" "2024-04-10" (by decide) (by decide) (by decide)

/-- Claim C8: a .json unit whose token does not parse into a date range
skips the overlap check entirely (it can never be skipped as overlapping,
whatever the ledger holds), raises the warning, and is processed
unconditionally. -/
theorem claim_C8_malformed_token (db : DB) (u : FileUnit)
    (hjson : endsWithJson u.filename = true)
    (hparse : extract_date_range u.filename = (none, none)) :
    processOneFile db u =
      (match transform_and_load db u.snapshot u.failAt with
       | .error db1 => (db1, .failed true)
       | .ok db1 => (db1, .committed true)) ∧
    (processOneFile db u).2 ≠ .skippedOverlap := by
  have h1 : processOneFile db u =
      (match transform_and_load db u.snapshot u.failAt with
       | .error db1 => (db1, .failed true)
       | .ok db1 => (db1, .committed true)) := by
    simp [processOneFile, hjson, hparse]
  refine ⟨h1, ?_⟩
  rw [h1]
  cases transform_and_load db u.snapshot u.failAt <;> simp

/-- Concrete instantiation of claim C8: a malformed token over a ledger
that would overlap any parsed range; the unit loads and commits with the
warning flag. -/
theorem claim_C8_witness :
    processOneFile ledgerDB ⟨"bad.json", Snapshot.empty, true, none⟩ =
      (ledgerDB, .committed true) ∧
    (processOneFile ledgerDB ⟨"bad.json", Snapshot.empty, true, none⟩).2 ≠
      .skippedOverlap := by
  have h := claim_C8_malformed_token ledgerDB
    ⟨"bad.json", Snapshot.empty, true, none⟩ (by decide) (by decide)
  exact ⟨by rw [h.1]; rfl, h.2⟩

/-- Claim C10: a failing overlap query makes file_overlaps_processed return
false, so a unit whose declared range does overlap a recorded range (hover)
is nevertheless processed like any non-overlapping unit. -/
theorem claim_C10_overlap_query_error (db : DB) (u : FileUnit) (s e : String)
    (hjson : endsWithJson u.filename = true)
    (hparse : extract_date_range u.filename = (some s, some e))
    (hqfail : u.overlapQueryOk = false)
    (hover : (db.processed_files.any fun r =>
      rangeOverlaps s e r.start_date r.end_date) = true) :
    file_overlaps_processed u.overlapQueryOk db.processed_files s e = false ∧
    processOneFile db u =
      (match transform_and_load db u.snapshot u.failAt with
       | .error db1 => (db1, .failed false)
       | .ok db1 => (record_file_processed db1 u.filename s e,
                     .committed false)) := by
  have hfo : file_overlaps_processed u.overlapQueryOk db.processed_files s e
      = false := by
    rw [hqfail, file_overlaps_processed]; rfl
  refine ⟨hfo, ?_⟩
  simp [processOneFile, hjson, hparse, hfo]

/-- Concrete instantiation of claim C10: the spec-example overlapping range
is loaded and recorded anyway because the overlap query errors out. -/
theorem claim_C10_witness :
    file_overlaps_processed false ledgerDB.processed_files
      "2024-04-05" "2024-04-10" = false ∧
    processOneFile ledgerDB
      ⟨"mlb_raw_2024-04-05_2024-04-10_c.json", Snapshot.empty, false, none⟩ =
      (match transform_and_load ledgerDB Snapshot.empty none with
       | .error db1 => (db1, .failed false)
       | .ok db1 => (record_file_processed db1
           "mlb_raw_2024-04-05_2024-04-10_c.json" "2024-04-05" "2024-04-10",
           .committed false)) :=
  claim_C10_overlap_query_error ledgerDB
    ⟨"mlb_raw_2024-04-05_2024-04-10_c.json", Snapshot.empty, false, none⟩
    "2024-04-05" "2024-04-10" (by decide) (by decide) (by decide) (by decide)

/-- Claim C7: a game either of whose team external ids is absent from the
current team mapping is skipped with a warning and contributes nothing —
the loop continues on the remaining games from the same state — and, in the
concrete two-game run, the unresolvable game is omitted from the games
table while the following game is still loaded. -/
theorem claim_C7_game_skipped_nonfatal (c : Conn) (ctr : Nat)
    (failAt : Option Nat) (mapApi gm : IdMap) (warns : Nat)
    (g : GameInput) (gs : List GameInput)
    (hmiss : lookupId mapApi g.home_team_id = none ∨
             lookupId mapApi g.away_team_id = none) :
    processGames c ctr failAt mapApi gm warns (g :: gs) =
      processGames c ctr failAt mapApi gm (warns + 1) gs ∧
    gamesTableIds (processGames ⟨DB.empty, DB.empty⟩ 0 none [(5, 1)] [] 0
      [c7Game30, c7Game31]) = [31] ∧
    gamesWarnCount (processGames ⟨DB.empty, DB.empty⟩ 0 none [(5, 1)] [] 0
      [c7Game30, c7Game31]) = some 1 := by
  refine ⟨?_, by decide, by decide⟩
  rcases hmiss with h | h
  · simp only [processGames, h]
  · cases hh : lookupId mapApi g.home_team_id with
    | none => simp only [processGames, hh]
    | some hid => simp only [processGames, hh, h]

/-- Concrete instantiation of claim C7 at the two-game demo run. -/
theorem claim_C7_witness :
    processGames ⟨DB.empty, DB.empty⟩ 0 none [(5, 1)] [] 0
      [c7Game30, c7Game31] =
      processGames ⟨DB.empty, DB.empty⟩ 0 none [(5, 1)] [] 1 [c7Game31] ∧
    gamesTableIds (processGames ⟨DB.empty, DB.empty⟩ 0 none [(5, 1)] [] 0
      [c7Game30, c7Game31]) = [31] ∧
    gamesWarnCount (processGames ⟨DB.empty, DB.empty⟩ 0 none [(5, 1)] [] 0
      [c7Game30, c7Game31]) = some 1 :=
  claim_C7_game_skipped_nonfatal ⟨DB.empty, DB.empty⟩ 0 none [(5, 1)] [] 0
    c7Game30 [c7Game31] (Or.inl (by decide))

/-- Team inserts never touch the ledger table. -/
theorem insertOrIgnoreTeam_pf (db : DB) (e : Nat) (nm : String)
    (venue city : Option String) :
    (db.insertOrIgnoreTeam e nm venue city).processed_files =
      db.processed_files := by
  rw [DB.insertOrIgnoreTeam]; split <;> rfl

/-- Player inserts never touch the ledger table. -/
theorem insertOrIgnorePlayer_pf (db : DB) (e : Nat) (nm : String)
    (teamId : Nat) (pos : String) :
    (db.insertOrIgnorePlayer e nm teamId pos).processed_files =
      db.processed_files := by
  rw [DB.insertOrIgnorePlayer]; split <;> rfl

/-- Game inserts never touch the ledger table. -/
theorem insertOrIgnoreGame_pf (db : DB) (e : Nat) (gdate loc : Option String)
    (homeId awayId : Nat) (hs as_ : Option Int) :
    (db.insertOrIgnoreGame e gdate loc homeId awayId hs as_).processed_files =
      db.processed_files := by
  rw [DB.insertOrIgnoreGame]; split <;> rfl

/-- A team resolver call preserves the ledger table on both connection
states, whichever way it ends. -/
theorem teamOpF_pf {c : Conn} {v : List ProcessedRow} (h : c.pf v)
    (ctr : Nat) (failAt : Option Nat) (t : TeamInput) :
    connPfAfter (·.1) (teamOpF c ctr failAt t) v := by
  simp only [teamOpF]
  split
  · exact h
  · split
    · exact ⟨(insertOrIgnoreTeam_pf _ _ _ _ _).trans h.2,
             (insertOrIgnoreTeam_pf _ _ _ _ _).trans h.2⟩
    · exact ⟨(insertOrIgnoreTeam_pf _ _ _ _ _).trans h.2,
             (insertOrIgnoreTeam_pf _ _ _ _ _).trans h.2⟩

/-- A player resolver call preserves the ledger table. -/
theorem playerOpF_pf {c : Conn} {v : List ProcessedRow} (h : c.pf v)
    (ctr : Nat) (failAt : Option Nat) (p : RosterPlayer) (teamId : Nat) :
    connPfAfter (·.1) (playerOpF c ctr failAt p teamId) v := by
  simp only [playerOpF]
  split
  · exact h
  · split
    · exact ⟨(insertOrIgnorePlayer_pf _ _ _ _ _).trans h.2,
             (insertOrIgnorePlayer_pf _ _ _ _ _).trans h.2⟩
    · exact ⟨(insertOrIgnorePlayer_pf _ _ _ _ _).trans h.2,
             (insertOrIgnorePlayer_pf _ _ _ _ _).trans h.2⟩

/-- A game resolver call preserves the ledger table. -/
theorem gameOpF_pf {c : Conn} {v : List ProcessedRow} (h : c.pf v)
    (ctr : Nat) (failAt : Option Nat) (g : GameInput) (hid aid : Nat) :
    connPfAfter (·.1) (gameOpF c ctr failAt g hid aid) v := by
  simp only [gameOpF]
  split
  · exact h
  · split
    · exact ⟨(insertOrIgnoreGame_pf _ _ _ _ _ _ _ _).trans h.2,
             (insertOrIgnoreGame_pf _ _ _ _ _ _ _ _).trans h.2⟩
    · exact ⟨(insertOrIgnoreGame_pf _ _ _ _ _ _ _ _).trans h.2,
             (insertOrIgnoreGame_pf _ _ _ _ _ _ _ _).trans h.2⟩

/-- The teams loop preserves the ledger table. -/
theorem processTeams_pf (v : List ProcessedRow) (ts : List TeamInput) :
    ∀ (c : Conn), c.pf v → ∀ ctr failAt mapApi mapName,
      connPfAfter (·.1) (processTeams c ctr failAt mapApi mapName ts) v := by
  induction ts with
  | nil => intro c h ctr failAt ma mn; exact h
  | cons t ts ih =>
    intro c h ctr failAt ma mn
    simp only [processTeams]
    have hop := teamOpF_pf h ctr failAt t
    split
    · next c1 heq =>
        rw [heq] at hop
        exact hop
    · next c1 tid ctr1 heq =>
        rw [heq] at hop
        exact ih c1 hop ctr1 failAt _ _

/-- The player loop of one roster preserves the ledger table. -/
theorem processRosterPlayers_pf (v : List ProcessedRow)
    (ps : List RosterPlayer) :
    ∀ (c : Conn), c.pf v → ∀ ctr failAt teamId pm,
      connPfAfter (·.1) (processRosterPlayers c ctr failAt teamId pm ps) v := by
  induction ps with
  | nil => intro c h ctr failAt tid pm; exact h
  | cons p ps ih =>
    intro c h ctr failAt tid pm
    simp only [processRosterPlayers]
    have hop := playerOpF_pf h ctr failAt p tid
    split
    · next c1 heq =>
        rw [heq] at hop
        exact hop
    · next c1 pid ctr1 heq =>
        rw [heq] at hop
        exact ih c1 hop ctr1 failAt tid _

/-- The rosters loop preserves the ledger table. -/
theorem processRosters_pf (v : List ProcessedRow)
    (rs : List (String × List RosterPlayer)) :
    ∀ (c : Conn), c.pf v → ∀ ctr failAt mapApi mapName pm,
      connPfAfter (·.1) (processRosters c ctr failAt mapApi mapName pm rs) v := by
  induction rs with
  | nil => intro c h ctr failAt ma mn pm; exact h
  | cons kr rest ih =>
    intro c h ctr failAt ma mn pm
    obtain ⟨key, roster⟩ := kr
    simp only [processRosters]
    split
    · exact ih c h ctr failAt ma mn pm
    · next tid heqk =>
        have hop := processRosterPlayers_pf v roster c h ctr failAt tid pm
        split
        · next c1 heq =>
            rw [heq] at hop
            exact hop
        · next c1 ctr1 pm1 heq =>
            rw [heq] at hop
            exact ih c1 hop ctr1 failAt ma mn pm1

/-- The games loop preserves the ledger table. -/
theorem processGames_pf (v : List ProcessedRow) (gs : List GameInput) :
    ∀ (c : Conn), c.pf v → ∀ ctr failAt mapApi gm warns,
      connPfAfter (·.1) (processGames c ctr failAt mapApi gm warns gs) v := by
  induction gs with
  | nil => intro c h ctr failAt ma gm w; exact h
  | cons g gs ih =>
    intro c h ctr failAt ma gm w
    simp only [processGames]
    split
    · next hid aid heqh heqa =>
        have hop := gameOpF_pf h ctr failAt g hid aid
        split
        · next c1 heq =>
            rw [heq] at hop
            exact hop
        · next c1 gid ctr1 heq =>
            rw [heq] at hop
            exact ih c1 hop ctr1 failAt ma _ w
    · next heqm =>
        exact ih c h ctr failAt ma gm (w + 1)

/-- The whole reference-resolution phase preserves the ledger table. -/
theorem resolveReferences_pf {c : Conn} {v : List ProcessedRow} (h : c.pf v)
    (failAt : Option Nat) (s : Snapshot) :
    connPfAfter (·.1) (resolveReferences c failAt s) v := by
  simp only [resolveReferences]
  have h1 := processTeams_pf v s.teams c h 0 failAt [] []
  split
  · next c1 heq =>
      rw [heq] at h1
      exact h1
  · next c1 ctr1 mapApi mapName heq =>
      rw [heq] at h1
      have h2 := processRosters_pf v s.rosters c1 h1 ctr1 failAt mapApi mapName []
      split
      · next c2 heq2 =>
          rw [heq2] at h2
          exact h2
      · next c2 ctr2 pm heq2 =>
          rw [heq2] at h2
          have h3 := processGames_pf v s.games c2 h2 ctr2 failAt mapApi [] 0
          split
          · next c3 heq3 =>
              rw [heq3] at h3
              exact h3
          · next c3 ctr3 gm warns heq3 =>
              rw [heq3] at h3
              exact h3

/-- Bulk batter insertion preserves the ledger table. -/
theorem bulkInsertBatter_pf {c : Conn} {v : List ProcessedRow} (h : c.pf v)
    (ctr : Nat) (failAt : Option Nat) (rows : List BatterRow) :
    connPfAfter (·.1) (bulkInsertBatter c ctr failAt rows) v := by
  simp only [bulkInsertBatter]
  split
  · exact h
  · exact ⟨h.2, h.2⟩

/-- Bulk pitcher insertion preserves the ledger table. -/
theorem bulkInsertPitcher_pf {c : Conn} {v : List ProcessedRow} (h : c.pf v)
    (ctr : Nat) (failAt : Option Nat) (rows : List PitcherRow) :
    connPfAfter (·.1) (bulkInsertPitcher c ctr failAt rows) v := by
  simp only [bulkInsertPitcher]
  split
  · exact h
  · exact ⟨h.2, h.2⟩

/-- transform_and_load never writes the processed_files ledger, neither on
success nor on a storage error. -/
theorem transform_and_load_pf (db : DB) (s : Snapshot) (failAt : Option Nat) :
    loadResultPf (transform_and_load db s failAt) db.processed_files := by
  simp only [transform_and_load]
  have h1 := resolveReferences_pf (c := ⟨db, db⟩) ⟨rfl, rfl⟩ failAt s
  split
  · next c1 heq =>
      rw [heq] at h1
      have h1' : c1.pf db.processed_files := h1
      exact h1'.1
  · next c1 ctr1 pm gm warns heq =>
      rw [heq] at h1
      have h1' : c1.pf db.processed_files := h1
      have h2 : c1.commit.pf db.processed_files := ⟨h1'.2, h1'.2⟩
      have hb : connPfAfter (·.1)
          (if s.batter_stats.isEmpty then Except.ok (c1.commit, ctr1)
           else bulkInsertBatter c1.commit ctr1 failAt
             (buildBatterRows gm pm s.batter_stats)) db.processed_files := by
        split
        · exact h2
        · exact bulkInsertBatter_pf h2 ctr1 failAt _
      split
      · next c3 heq3 =>
          rw [heq3] at hb
          have hb' : c3.pf db.processed_files := hb
          exact hb'.1
      · next c3 ctr3 heq3 =>
          rw [heq3] at hb
          have hb' : c3.pf db.processed_files := hb
          have hp : connPfAfter (·.1)
              (if s.pitcher_stats.isEmpty then Except.ok (c3, ctr3)
               else bulkInsertPitcher c3 ctr3 failAt
                 (buildPitcherRows gm pm s.pitcher_stats)) db.processed_files := by
            split
            · exact hb'
            · exact bulkInsertPitcher_pf hb' ctr3 failAt _
          split
          · next c4 heq4 =>
              rw [heq4] at hp
              have hp' : c4.pf db.processed_files := hp
              exact hp'.1
          · next c4 ctr4 heq4 =>
              rw [heq4] at hp
              have hp' : c4.pf db.processed_files := hp
              exact hp'.1

/-- Claim C6: a unit whose load raises an unhandled storage error before
the ledger record is written ends failed: the database keeps exactly the
state the failed load left durable, but with no ledger row added for the
unit; the unit stays in the intake listing and is not archived; and the
batch continues with the remaining units exactly as it would have from that
state. -/
theorem claim_C6_failed_unit_isolated (db db' : DB) (u : FileUnit)
    (us : List FileUnit) (s e : String)
    (hjson : endsWithJson u.filename = true)
    (hparse : extract_date_range u.filename = (some s, some e))
    (hnoover : file_overlaps_processed u.overlapQueryOk db.processed_files s e
      = false)
    (herr : transform_and_load db u.snapshot u.failAt = .error db') :
    processOneFile db u = (db', .failed false) ∧
    db'.processed_files = db.processed_files ∧
    mainRun db (u :: us) =
      ((mainRun db' us).1, .failed false :: (mainRun db' us).2) ∧
    remainingRaw (u :: us) (mainRun db (u :: us)).2 =
      u.filename :: remainingRaw us (mainRun db' us).2 ∧
    archivedFiles (u :: us) (mainRun db (u :: us)).2 =
      archivedFiles us (mainRun db' us).2 := by
  have h1 : processOneFile db u = (db', .failed false) := by
    simp [processOneFile, hjson, hparse, hnoover, herr]
  have hpf := transform_and_load_pf db u.snapshot u.failAt
  rw [herr] at hpf
  have hpf' : db'.processed_files = db.processed_files := hpf
  have hmain : mainRun db (u :: us) =
      ((mainRun db' us).1, .failed false :: (mainRun db' us).2) := by
    simp only [mainRun, h1]
  refine ⟨h1, hpf', hmain, ?_, ?_⟩
  · rw [hmain]
    simp only [remainingRaw]
  · rw [hmain]
    simp only [archivedFiles]

/-- Concrete instantiation of claim C6: the first unit of the batch fails,
stays in intake with no ledger row, and the second unit is still processed. -/
theorem claim_C6_witness :
    processOneFile DB.empty c6Unit1 = (DB.empty, .failed false) ∧
    DB.empty.processed_files = DB.empty.processed_files ∧
    mainRun DB.empty [c6Unit1, c6Unit2] =
      ((mainRun DB.empty [c6Unit2]).1,
        .failed false :: (mainRun DB.empty [c6Unit2]).2) ∧
    remainingRaw [c6Unit1, c6Unit2] (mainRun DB.empty [c6Unit1, c6Unit2]).2 =
      c6Unit1.filename :: remainingRaw [c6Unit2] (mainRun DB.empty [c6Unit2]).2 ∧
    archivedFiles [c6Unit1, c6Unit2] (mainRun DB.empty [c6Unit1, c6Unit2]).2 =
      archivedFiles [c6Unit2] (mainRun DB.empty [c6Unit2]).2 :=
  claim_C6_failed_unit_isolated DB.empty DB.empty c6Unit1 [c6Unit2]
    "2024-05-01" "2024-05-07" (by decide) (by decide) (by decide) rfl
